import Mathlib

/-!
Shallow embedding of `create-icons.py`, a script that renders four square
placeholder icons (sizes 16, 32, 48, 128) with a centered white letter on a
blue background and writes them to `extension/icons/`.

External effects (the PIL imaging library, the filesystem, font
rasterization) are modelled by an environment `PyEnv` of oracles; the
script's own computations are translated line by line.
-/

/-- An RGB color as a triple of channel values. -/
abbrev Color := Nat × Nat × Nat

/-- PIL parses the color string given as fill color for the text, which is
the named color white, to the triple (255, 255, 255). -/
def whiteColor : Color := (255, 255, 255)

/-- PIL parses the hex triple given as background at line 13 of the source,
the string hash-4285f4, to the triple (0x42, 0x85, 0xf4). -/
def backgroundColor : Color := (0x42, 0x85, 0xf4)

/-- The font object returned by `ImageFont.load_default()`. The script only
ever obtains this one font (or none), so a single constructor suffices; its
metrics live in the environment. -/
inductive Font where
  | default
  deriving DecidableEq, Repr

/-- An in-memory image as produced by `Image.new`: a color mode, a side
length, and a total pixel function (indices outside the square are
irrelevant to every claim). -/
structure Bitmap where
  mode : String
  size : Nat
  pixel : Nat → Nat → Color

/-- `Image.new('RGB', (size, size), '#4285f4')` and, generally, a uniformly
filled square RGB image. -/
def imageNew (size : Nat) (c : Color) : Bitmap :=
  { mode := "RGB", size := size, pixel := fun _ _ => c }

/-- `draw.text((x, y), text, fill=..., font=...)`: the rasterizer covers some
set of pixels (the glyph stroke, supplied as a mask by the environment) and
paints exactly those with the fill color, leaving all others unchanged. -/
def drawText (b : Bitmap) (mask : Nat → Nat → Bool) (fill : Color) : Bitmap :=
  { mode := b.mode, size := b.size,
    pixel := fun i j => if mask i j then fill else b.pixel i j }

/-- Environment of external behaviors: whether the PIL import succeeds,
whether `ImageFont.load_default()` succeeds, the result of
`draw.textbbox((0, 0), 'S', font=font)` (which may raise), the rasterizer's
glyph-stroke mask given the font and the draw position, and the outcomes of
`os.makedirs` and `img.save` (which may raise, the latter keyed by path). -/
structure PyEnv where
  pilAvailable : Bool
  loadDefaultOk : Bool
  textbbox : Font → Except String (Int × Int × Int × Int)
  glyphMask : Option Font → Int × Int → Nat → Nat → Bool
  makedirs : Except String Unit
  save : String → Except String Unit

/-- Everything the drawing phase of `create_icon` (source lines 13 to 39)
determines: the finished bitmap, the font actually used, the computed
`font_size`, the measured or estimated text width and height, the draw
position, and the glyph-stroke mask applied. -/
structure RenderResult where
  image : Bitmap
  fontUsed : Option Font
  fontSizeRequested : Nat
  textWidth : Int
  textHeight : Int
  drawnPos : Int × Int
  coverage : Nat → Nat → Bool

/-- Lines 19 to 23 of the source: `try: font = ImageFont.load_default()
except: font = None`. The bare `except` catches everything, so the outcome
is exactly `some` the default font or `none`. -/
def resolveFont (env : PyEnv) : Option Font :=
  if env.loadDefaultOk then some Font.default else none

/-- Lines 27 to 34 of the source: if a font object was obtained, measure
`'S'` with `draw.textbbox((0, 0), text, font=font)` and take
`bbox[2] - bbox[0]` and `bbox[3] - bbox[1]`; an exception from `textbbox`
propagates. Otherwise substitute the estimates `font_size // 2` and
`font_size` (Python floor division on nonnegative integers). -/
def measureText (env : PyEnv) (font : Option Font) (font_size : Nat) :
    Except String (Int × Int) :=
  match font with
  | some f =>
    match env.textbbox f with
    | Except.ok (x0, y0, x1, y1) => Except.ok (x1 - x0, y1 - y0)
    | Except.error e => Except.error e
  | none => Except.ok (((font_size / 2 : Nat) : Int), ((font_size : Nat) : Int))

/-- Lines 36 to 39 of the source: place the text at
`((size - text_width) // 2, (size - text_height) // 2)` — Python `//` is
floor division, `Int.fdiv` here — and draw it in white on the
background-filled square allocated at line 13. -/
def finishRender (env : PyEnv) (size : Nat) (font : Option Font)
    (font_size : Nat) (tw th : Int) : RenderResult :=
  let x : Int := ((size : Int) - tw).fdiv 2
  let y : Int := ((size : Int) - th).fdiv 2
  let mask := env.glyphMask font (x, y)
  { image := drawText (imageNew size backgroundColor) mask whiteColor
    fontUsed := font
    fontSizeRequested := font_size
    textWidth := tw
    textHeight := th
    drawnPos := (x, y)
    coverage := mask }

/-- Lines 13 to 39 of `create_icon`: allocate the background-filled square,
compute `font_size = int(size * 0.6)` (for every size in the script's range
the IEEE-754 product rounds so that this equals floor division
`size * 6 / 10`), resolve the font, measure or estimate the text box, and
place and draw the text. -/
def renderIcon (env : PyEnv) (size : Nat) : Except String RenderResult :=
  let font_size : Nat := size * 6 / 10
  let font : Option Font := resolveFont env
  match measureText env font font_size with
  | Except.error e => Except.error e
  | Except.ok (tw, th) => Except.ok (finishRender env size font font_size tw th)

/-- One printed line of the script, by construction site; the payloads are
the data interpolated into the corresponding f-string. -/
inductive Line where
  | created (filename : String) (size : Nat)
  | allCreated
  | reenableIconsNote
  | uncommentSectionsNote
  | pilNotFound
  | installPillowHint
  | altIntro
  | manualStep1
  | manualStep2
  | manualStep3
  | manualStep4
  | errorCreating (msg : String)
  | manualSuggestion
  deriving DecidableEq, Repr

/-- The text of each printed line (emoji prefixes omitted). -/
def Line.text : Line → String
  | .created f s => "Created " ++ f ++ " (" ++ toString s ++ "x" ++ toString s ++ ")"
  | .allCreated => "All icons created successfully!"
  | .reenableIconsNote => "You can now re-enable icons in manifest.json"
  | .uncommentSectionsNote => "   Uncomment the default_icon and icons sections"
  | .pilNotFound => "PIL (Pillow) not found. Install it with:"
  | .installPillowHint => "   pip install Pillow"
  | .altIntro => "Alternatively, create icons manually:"
  | .manualStep1 => "1. Use any image editor to create 16x16, 32x32, 48x48, 128x128 PNG files"
  | .manualStep2 => "2. Save them as icon16.png, icon32.png, icon48.png, icon128.png"
  | .manualStep3 => "3. Place them in extension/icons/ folder"
  | .manualStep4 => "4. Re-enable icon references in manifest.json"
  | .errorCreating e => "Error creating icons: " ++ e
  | .manualSuggestion => "Please create icons manually or use online tools."

/-- Observable state of a run: the files written so far (path component
inside the output directory, paired with the saved bitmap), in write order,
and the lines printed so far. -/
structure IconState where
  files : List (String × Bitmap)
  output : List Line

/-- The empty starting state: no files on disk, nothing printed. -/
def initState : IconState := { files := [], output := [] }

/-- The whole of `create_icon(size, filename)`: the drawing phase, then
`os.makedirs('extension/icons', exist_ok=True)`, then
`img.save('extension/icons/' + filename)`, then the success print. Any
exception aborts the call, leaving the state as it was (errors carry the
state at the time they are raised). -/
def create_icon (env : PyEnv) (size : Nat) (filename : String) (st : IconState) :
    Except (String × IconState) IconState :=
  match renderIcon env size with
  | Except.error e => Except.error (e, st)
  | Except.ok r =>
    match env.makedirs with
    | Except.error e => Except.error (e, st)
    | Except.ok _ =>
      match env.save ("extension/icons/" ++ filename) with
      | Except.error e => Except.error (e, st)
      | Except.ok _ =>
        Except.ok
          { files := st.files ++ [(filename, r.image)]
            output := st.output ++ [Line.created filename size] }

/-- The four fixed calls at lines 47 to 50, in order. -/
def iconList : List (Nat × String) :=
  [(16, "icon16.png"), (32, "icon32.png"), (48, "icon48.png"), (128, "icon128.png")]

/-- Run `create_icon` over a list of (size, filename) pairs in order,
stopping at the first exception. -/
def runIcons (env : PyEnv) : List (Nat × String) → IconState →
    Except (String × IconState) IconState
  | [], st => Except.ok st
  | (s, f) :: rest, st =>
    match create_icon env s f st with
    | Except.error p => Except.error p
    | Except.ok st' => runIcons env rest st'

/-- The fixed remedial message of the `except ImportError` handler: the
install hint followed by the four-step manual fallback. -/
def importErrorLines : List Line :=
  [Line.pilNotFound, Line.installPillowHint, Line.altIntro,
   Line.manualStep1, Line.manualStep2, Line.manualStep3, Line.manualStep4]

/-- The module: if the PIL import fails, print the remedial instructions and
stop with no files; otherwise run the four icons in order, printing the
success banner on success, or the error message (carrying the exception
text) and the generic suggestion if any exception reached the top-level
handler. -/
def mainScript (env : PyEnv) : IconState :=
  if env.pilAvailable then
    match runIcons env iconList initState with
    | Except.ok st =>
      { st with output := st.output ++
          [Line.allCreated, Line.reenableIconsNote, Line.uncommentSectionsNote] }
    | Except.error (e, st) =>
      { st with output := st.output ++ [Line.errorCreating e, Line.manualSuggestion] }
  else
    { files := [], output := importErrorLines }

/-! Concrete environments, used to evaluate the script at particular
external behaviors. -/

/-- An environment where everything succeeds: PIL imports, the default font
loads, `textbbox` answers (0, 2, 7, 10) for the letter S, the rasterizer
covers no pixel, and the filesystem never fails. -/
def envAllOk : PyEnv :=
  { pilAvailable := true
    loadDefaultOk := true
    textbbox := fun _ => Except.ok (0, 2, 7, 10)
    glyphMask := fun _ _ _ _ => false
    makedirs := Except.ok ()
    save := fun _ => Except.ok () }

/-- Like `envAllOk` except `ImageFont.load_default()` raises, so the script
keeps `font = None`. -/
def envNoFont : PyEnv := { envAllOk with loadDefaultOk := false }

/-- Like `envAllOk` except the PIL import itself fails. -/
def envNoPil : PyEnv := { envAllOk with pilAvailable := false }

/-- Like `envAllOk` except `textbbox` raises. -/
def envBadBBox : PyEnv :=
  { envAllOk with textbbox := fun _ => Except.error "bbox failure" }

/-- Like `envAllOk` except the measured glyph is wider and taller than a
16-pixel icon, so both placement offsets go negative at size 16. -/
def envBigGlyph : PyEnv :=
  { envAllOk with textbbox := fun _ => Except.ok (0, 0, 20, 30) }

/-- Like `envAllOk` except saving the third icon file raises. -/
def envSaveFail48 : PyEnv :=
  { envAllOk with save := fun p =>
      if p = "extension/icons/icon48.png" then Except.error "disk full"
      else Except.ok () }

/-- A throwaway render result used as the default arm of evaluation
helpers. -/
def dummyResult : RenderResult :=
  { image := imageNew 0 backgroundColor
    fontUsed := none
    fontSizeRequested := 0
    textWidth := 0
    textHeight := 0
    drawnPos := (0, 0)
    coverage := fun _ _ => false }

/-- The render result at `envBigGlyph`, size 16 (oversized measured
glyph). -/
def resBigGlyph : RenderResult :=
  match renderIcon envBigGlyph 16 with
  | Except.ok r => r
  | Except.error _ => dummyResult

/-- The render result at `envNoFont`, size 16 (fallback estimate path). -/
def resNoFont : RenderResult :=
  match renderIcon envNoFont 16 with
  | Except.ok r => r
  | Except.error _ => dummyResult

/-- The render result at `envAllOk`, size 16. -/
def resAllOk : RenderResult :=
  match renderIcon envAllOk 16 with
  | Except.ok r => r
  | Except.error _ => dummyResult

/-- The state after the first two icons succeed at `envSaveFail48`. -/
def stateAfterTwo : IconState :=
  match runIcons envSaveFail48 [(16, "icon16.png"), (32, "icon32.png")] initState with
  | Except.ok st => st
  | Except.error p => p.2

/-- The state after all four icons succeed at `envAllOk`. -/
def stateAllFour : IconState :=
  match runIcons envAllOk iconList initState with
  | Except.ok st => st
  | Except.error p => p.2

/-- View of the files on disk: for each, its name, the side length of the
saved bitmap, and its color mode, in write order. -/
def fileView (st : IconState) : List (String × Nat × String) :=
  st.files.map (fun p => (p.1, p.2.size, p.2.mode))

/-- View of the files on disk: for each, its name and the side length of
the saved bitmap. -/
def fileSizes (st : IconState) : List (String × Nat) :=
  st.files.map (fun p => (p.1, p.2.size))

/-- The state a run ends in, whether it finished normally or was stopped by
an exception. -/
def stateOf : Except (String × IconState) IconState → IconState
  | Except.ok st => st
  | Except.error p => p.2

/-- Every success line printed so far is backed by a file of the announced
name and size already on disk. -/
def successBacked (st : IconState) : Prop :=
  ∀ f s, Line.created f s ∈ st.output → (f, s) ∈ fileSizes st

/-! Helper lemmas. -/

/-- A successful render is `finishRender` at some measured pair. -/
theorem renderIcon_ok_cases (env : PyEnv) (size : Nat) (r : RenderResult)
    (h : renderIcon env size = Except.ok r) :
    ∃ tw th, measureText env (resolveFont env) (size * 6 / 10) = Except.ok (tw, th) ∧
      r = finishRender env size (resolveFont env) (size * 6 / 10) tw th := by
  simp only [renderIcon] at h
  cases hm : measureText env (resolveFont env) (size * 6 / 10) with
  | error e => rw [hm] at h; cases h
  | ok p =>
    obtain ⟨tw, th⟩ := p
    rw [hm] at h
    injection h with h1
    exact ⟨tw, th, rfl, h1.symm⟩

/-- A successful render produces a square RGB bitmap of the requested
side. -/
theorem renderIcon_ok_image (env : PyEnv) (size : Nat) (r : RenderResult)
    (h : renderIcon env size = Except.ok r) :
    r.image.size = size ∧ r.image.mode = "RGB" := by
  obtain ⟨tw, th, hm, rfl⟩ := renderIcon_ok_cases env size r h
  exact ⟨rfl, rfl⟩

/-- An exception in `create_icon` leaves the state unchanged. -/
theorem create_icon_error_state (env : PyEnv) (s : Nat) (f : String)
    (st : IconState) (e : String) (st' : IconState)
    (h : create_icon env s f st = Except.error (e, st')) : st' = st := by
  unfold create_icon at h
  cases hr : renderIcon env s with
  | error e0 =>
    rw [hr] at h
    injection h with hp
    injection hp with h1 h2
    exact h2.symm
  | ok r =>
    rw [hr] at h
    cases hm : env.makedirs with
    | error e0 =>
      rw [hm] at h
      injection h with hp
      injection hp with h1 h2
      exact h2.symm
    | ok u =>
      rw [hm] at h
      cases hs : env.save ("extension/icons/" ++ f) with
      | error e0 =>
        rw [hs] at h
        injection h with hp
        injection hp with h1 h2
        exact h2.symm
      | ok u2 => rw [hs] at h; cases h

/-- A successful `create_icon` wrote exactly one new file — the rendered
bitmap under the given name — and printed exactly one new line, the success
message, after the write. -/
theorem create_icon_ok_state (env : PyEnv) (s : Nat) (f : String)
    (st st' : IconState) (h : create_icon env s f st = Except.ok st') :
    ∃ r, renderIcon env s = Except.ok r ∧
      st' = { files := st.files ++ [(f, r.image)]
              output := st.output ++ [Line.created f s] } := by
  unfold create_icon at h
  cases hr : renderIcon env s with
  | error e0 => rw [hr] at h; cases h
  | ok r =>
    rw [hr] at h
    cases hm : env.makedirs with
    | error e0 => rw [hm] at h; cases h
    | ok u =>
      rw [hm] at h
      cases hs : env.save ("extension/icons/" ++ f) with
      | error e0 => rw [hs] at h; cases h
      | ok u2 =>
        rw [hs] at h
        injection h with h1
        exact ⟨r, rfl, h1.symm⟩

/-- Running a concatenation of icon batches runs the first batch, then the
second from the state the first reached, stopping at the first
exception. -/
theorem runIcons_append (env : PyEnv) (l₁ l₂ : List (Nat × String))
    (st : IconState) :
    runIcons env (l₁ ++ l₂) st =
      match runIcons env l₁ st with
      | Except.ok st' => runIcons env l₂ st'
      | Except.error p => Except.error p := by
  induction l₁ generalizing st with
  | nil => rfl
  | cons hd tl ih =>
    obtain ⟨s, f⟩ := hd
    cases hc : create_icon env s f st with
    | error p => simp only [List.cons_append, runIcons, hc]
    | ok st' =>
      simp only [List.cons_append, runIcons, hc]
      exact ih st'

/-- A batch that finishes normally appends, for each requested
(size, name) pair in order, one file of that name, square of that size, in
RGB mode. -/
theorem runIcons_ok_fileView (env : PyEnv) (l : List (Nat × String))
    (st0 st : IconState) (h : runIcons env l st0 = Except.ok st) :
    fileView st = fileView st0 ++ l.map (fun p => (p.2, p.1, "RGB")) := by
  induction l generalizing st0 with
  | nil =>
    unfold runIcons at h
    injection h with h1
    subst h1
    simp
  | cons hd tl ih =>
    obtain ⟨s, f⟩ := hd
    unfold runIcons at h
    cases hc : create_icon env s f st0 with
    | error p => rw [hc] at h; cases h
    | ok st1 =>
      rw [hc] at h
      obtain ⟨r, hr, hst1⟩ := create_icon_ok_state env s f st0 st1 hc
      obtain ⟨hsz, hmode⟩ := renderIcon_ok_image env s r hr
      subst hst1
      rw [ih _ h]
      simp [fileView, hsz, hmode]

/-- `create_icon` preserves the invariant that every printed success line
is backed by a file already on disk: an exception changes nothing, and a
success writes the file before printing its line. -/
theorem create_icon_successBacked (env : PyEnv) (s : Nat) (f : String)
    (st : IconState) (h : successBacked st) :
    successBacked (stateOf (create_icon env s f st)) := by
  cases hc : create_icon env s f st with
  | error p =>
    obtain ⟨e, st'⟩ := p
    have hst := create_icon_error_state env s f st e st' hc
    simpa [stateOf, hst] using h
  | ok st1 =>
    obtain ⟨r, hr, hst1⟩ := create_icon_ok_state env s f st st1 hc
    obtain ⟨hsz, hmode⟩ := renderIcon_ok_image env s r hr
    subst hst1
    intro f' s' hmem
    simp only [stateOf] at hmem ⊢
    rcases List.mem_append.mp hmem with hin | hnew
    · have := h f' s' hin
      simp only [fileSizes, List.map_append]
      exact List.mem_append.mpr (Or.inl this)
    · simp at hnew
      obtain ⟨rfl, rfl⟩ := hnew
      simp [fileSizes, hsz]

/-- `runIcons` preserves the success-line invariant, also when it stops at
an exception. -/
theorem runIcons_successBacked (env : PyEnv) (l : List (Nat × String))
    (st0 : IconState) (h : successBacked st0) :
    successBacked (stateOf (runIcons env l st0)) := by
  induction l generalizing st0 with
  | nil => exact h
  | cons hd tl ih =>
    obtain ⟨s, f⟩ := hd
    show successBacked (stateOf (runIcons env ((s, f) :: tl) st0))
    unfold runIcons
    cases hc : create_icon env s f st0 with
    | error p =>
      have h1 := create_icon_successBacked env s f st0 h
      rw [hc] at h1
      exact h1
    | ok st1 =>
      have h1 := create_icon_successBacked env s f st0 h
      rw [hc] at h1
      exact ih st1 h1

/-- When the PIL import fails, the script only prints the remedial
instructions. -/
theorem mainScript_noPil (env : PyEnv) (hp : env.pilAvailable = false) :
    mainScript env = { files := [], output := importErrorLines } := by
  simp [mainScript, hp]

/-- When the batch finishes normally, the script appends the success
banner. -/
theorem mainScript_ok (env : PyEnv) (st : IconState)
    (hp : env.pilAvailable = true)
    (hr : runIcons env iconList initState = Except.ok st) :
    mainScript env = { st with output := st.output ++
      [Line.allCreated, Line.reenableIconsNote, Line.uncommentSectionsNote] } := by
  simp [mainScript, hp, hr]

/-- When the batch stops at an exception, the script appends the error
message and the generic suggestion. -/
theorem mainScript_error (env : PyEnv) (e : String) (st : IconState)
    (hp : env.pilAvailable = true)
    (hr : runIcons env iconList initState = Except.error (e, st)) :
    mainScript env = { st with output := st.output ++
      [Line.errorCreating e, Line.manualSuggestion] } := by
  simp [mainScript, hp, hr]

/-! Claim theorems. -/

/-- C1: for every size S and every glyph width W and height H — measured or
estimated — `renderIcon` draws the glyph at top-left offset
x = floor((S - W) / 2), y = floor((S - H) / 2); negative offsets are
permitted and not guarded against. -/
theorem centered_placement (env : PyEnv) (size : Nat) (r : RenderResult)
    (h : renderIcon env size = Except.ok r) :
    r.drawnPos = (((size : Int) - r.textWidth).fdiv 2,
                  ((size : Int) - r.textHeight).fdiv 2) := by
  obtain ⟨tw, th, hm, rfl⟩ := renderIcon_ok_cases env size r h
  rfl

/-- Witness for C1: at size 16 with a measured box of width 20 and height
30, rendering succeeds and the placement is the floor formula — with both
offsets negative. -/
theorem centered_placement_witness :
    resBigGlyph.drawnPos = (((16 : Int) - resBigGlyph.textWidth).fdiv 2,
        ((16 : Int) - resBigGlyph.textHeight).fdiv 2) ∧
    resBigGlyph.drawnPos = (-2, -7) :=
  ⟨centered_placement envBigGlyph 16 resBigGlyph rfl, rfl⟩

/-- C2: for every size, when the font with adjustable size resolves, the
requested font size is floor(0.6 * size) = size * 6 / 10, and the render
does not fail when the request falls back to the fixed-size default font
(any successfully measured default metrics). -/
theorem font_size_request (env : PyEnv) (size : Nat) (a b c d : Int)
    (h1 : env.loadDefaultOk = true)
    (h2 : env.textbbox Font.default = Except.ok (a, b, c, d)) :
    (renderIcon env size).toOption.map RenderResult.fontSizeRequested =
      some (size * 6 / 10) := by
  simp [renderIcon, resolveFont, measureText, finishRender, h1, h2,
    Except.toOption]

/-- Witness for C2: at `envAllOk` and size 16 the requested font size is 9
= floor(0.6 * 16) and the render succeeds. -/
theorem font_size_request_witness :
    (renderIcon envAllOk 16).toOption.map RenderResult.fontSizeRequested =
      some 9 :=
  font_size_request envAllOk 16 0 2 7 10 rfl rfl

/-- C3: for every size, when no font object is obtained, the estimated
width is (size * 6 / 10) / 2 and the estimated height is size * 6 / 10
(integer division), and these are what placement uses. -/
theorem fallback_estimate (env : PyEnv) (size : Nat)
    (h : env.loadDefaultOk = false) :
    (renderIcon env size).toOption.map
        (fun r => (r.textWidth, r.textHeight, r.drawnPos)) =
      some (((size * 6 / 10 / 2 : Nat) : Int), ((size * 6 / 10 : Nat) : Int),
        (((size : Int) - ((size * 6 / 10 / 2 : Nat) : Int)).fdiv 2,
         ((size : Int) - ((size * 6 / 10 : Nat) : Int)).fdiv 2)) := by
  simp [renderIcon, resolveFont, measureText, finishRender, h, Except.toOption]

/-- Witness for C3: at size 16 with no font, the estimates are width 4 and
height 9 and the glyph is placed at (6, 3). -/
theorem fallback_estimate_witness :
    (renderIcon envNoFont 16).toOption.map
        (fun r => (r.textWidth, r.textHeight, r.drawnPos)) =
      some (4, 9, (6, 3)) :=
  fallback_estimate envNoFont 16 rfl

/-- C4: for every size S, `renderIcon` builds an S-by-S RGB bitmap whose
every pixel outside the glyph stroke is the background color #4285f4. -/
theorem background_fill (env : PyEnv) (size : Nat) (r : RenderResult)
    (i j : Nat) (h : renderIcon env size = Except.ok r)
    (hc : r.coverage i j = false) :
    r.image.pixel i j = backgroundColor ∧ r.image.size = size ∧
      r.image.mode = "RGB" := by
  obtain ⟨tw, th, hm, rfl⟩ := renderIcon_ok_cases env size r h
  refine ⟨?_, rfl, rfl⟩
  simp only [finishRender, drawText, imageNew] at hc ⊢
  rw [hc]
  rfl

/-- Witness for C4: at `envAllOk` and size 16, pixel (0, 0) lies outside
the (empty) glyph stroke and is the background color of a 16-by-16 RGB
bitmap. -/
theorem background_fill_witness :
    resAllOk.image.pixel 0 0 = backgroundColor ∧ resAllOk.image.size = 16 ∧
      resAllOk.image.mode = "RGB" :=
  background_fill envAllOk 16 resAllOk 0 0 rfl rfl

/-- C8: font resolution never propagates an error: for every size, if
loading the preferred font raises, `renderIcon` proceeds with no font
object and still succeeds. -/
theorem font_failure_no_propagation (env : PyEnv) (size : Nat)
    (h : env.loadDefaultOk = false) :
    (renderIcon env size).toOption.map RenderResult.fontUsed = some none := by
  simp [renderIcon, resolveFont, measureText, finishRender, h, Except.toOption]

/-- Witness for C8: at `envNoFont` and size 16, the render succeeds with no
font object. -/
theorem font_failure_no_propagation_witness :
    (renderIcon envNoFont 16).toOption.map RenderResult.fontUsed = some none :=
  font_failure_no_propagation envNoFont 16 rfl

/-- C5: if the imaging capability is unavailable at startup, the run is
abandoned before any icon is attempted: zero files are produced and the
fixed remedial instructions (install hint plus the four-step manual
fallback) are emitted. -/
theorem missing_capability (env : PyEnv) (h : env.pilAvailable = false) :
    (mainScript env).files = [] ∧ (mainScript env).output = importErrorLines := by
  simp [mainScript, h]

/-- Witness for C5: at `envNoPil` the run writes nothing and prints the
remedial instructions. -/
theorem missing_capability_witness :
    (mainScript envNoPil).files = [] ∧
      (mainScript envNoPil).output = importErrorLines :=
  missing_capability envNoPil rfl

/-- C6: if any exception occurs while rendering the icon at position k of
the batch after the first k - 1 succeeded, exactly k - 1 files exist
afterward — the same ones, untouched — the error message carrying the
failure detail is printed, and the batch halts with no attempt at later
icons. -/
theorem partial_failure_halts (env : PyEnv) (pre post : List (Nat × String))
    (s : Nat) (f : String) (e : String) (st st' : IconState)
    (hpil : env.pilAvailable = true)
    (hsplit : iconList = pre ++ (s, f) :: post)
    (hpre : runIcons env pre initState = Except.ok st)
    (hfail : create_icon env s f st = Except.error (e, st')) :
    (mainScript env).files.length = pre.length ∧
    (mainScript env).files = st.files ∧
    (mainScript env).output =
      st.output ++ [Line.errorCreating e, Line.manualSuggestion] ∧
    (Line.errorCreating e).text = "Error creating icons: " ++ e := by
  have hst : st' = st := create_icon_error_state env s f st e st' hfail
  subst hst
  have hiter : runIcons env iconList initState = Except.error (e, st') := by
    rw [hsplit, runIcons_append, hpre]
    simp only [runIcons, hfail]
  have hlen : st'.files.length = pre.length := by
    have hfv := runIcons_ok_fileView env pre initState st' hpre
    have := congrArg List.length hfv
    simpa [fileView, initState] using this
  refine ⟨?_, ?_, ?_, rfl⟩ <;> simp [mainScript, hpil, hiter, hlen]

/-- Witness for C6: at `envSaveFail48` — where saving the third icon file
raises — the run stops with exactly the first two files on disk and the
error message naming the failure. -/
theorem partial_failure_halts_witness :
    (mainScript envSaveFail48).files.length = 2 ∧
    (mainScript envSaveFail48).files = stateAfterTwo.files ∧
    (mainScript envSaveFail48).output = stateAfterTwo.output ++
      [Line.errorCreating "disk full", Line.manualSuggestion] ∧
    (Line.errorCreating "disk full").text =
      "Error creating icons: " ++ "disk full" :=
  partial_failure_halts envSaveFail48 [(16, "icon16.png"), (32, "icon32.png")]
    [(128, "icon128.png")] 48 "icon48.png" "disk full"
    stateAfterTwo stateAfterTwo rfl rfl rfl rfl

/-- C7: on a fully successful run, the driver renders once per size in the
order [16, 32, 48, 128] and exactly the four files icon16.png, icon32.png,
icon48.png, icon128.png exist, each a square RGB bitmap of the matching
side, followed by the success banner. -/
theorem successful_run (env : PyEnv) (st : IconState)
    (hpil : env.pilAvailable = true)
    (hok : runIcons env iconList initState = Except.ok st) :
    fileView (mainScript env) =
      [("icon16.png", 16, "RGB"), ("icon32.png", 32, "RGB"),
       ("icon48.png", 48, "RGB"), ("icon128.png", 128, "RGB")] ∧
    (mainScript env).output = st.output ++
      [Line.allCreated, Line.reenableIconsNote, Line.uncommentSectionsNote] := by
  have hfv := runIcons_ok_fileView env iconList initState st hok
  constructor
  · simp only [mainScript, hpil, if_true, hok]
    simpa [fileView, initState, iconList] using hfv
  · simp [mainScript, hpil, hok]

/-- Witness for C7: at `envAllOk` the run writes the four expected files of
the expected sides and prints the banner. -/
theorem successful_run_witness :
    fileView (mainScript envAllOk) =
      [("icon16.png", 16, "RGB"), ("icon32.png", 32, "RGB"),
       ("icon48.png", 48, "RGB"), ("icon128.png", 128, "RGB")] ∧
    (mainScript envAllOk).output = stateAllFour.output ++
      [Line.allCreated, Line.reenableIconsNote, Line.uncommentSectionsNote] :=
  successful_run envAllOk stateAllFour rfl rfl

/-- C9: the per-icon success message is printed only after the bitmap is
saved, so whenever a success line naming a file and size has been emitted,
a file of that name, of that size, exists. -/
theorem success_line_implies_file (env : PyEnv) (f : String) (s : Nat)
    (h : Line.created f s ∈ (mainScript env).output) :
    (f, s) ∈ fileSizes (mainScript env) := by
  have hinv : successBacked initState := by
    intro f' s' hm
    simp [initState] at hm
  have hrun := runIcons_successBacked env iconList initState hinv
  cases hp : env.pilAvailable with
  | false =>
    rw [mainScript_noPil env hp] at h
    simp [importErrorLines] at h
  | true =>
    cases hr : runIcons env iconList initState with
    | ok st =>
      rw [mainScript_ok env st hp hr] at h ⊢
      rw [hr] at hrun
      simp only [stateOf] at hrun
      simp at h
      simpa [fileSizes] using hrun f s h
    | error p =>
      obtain ⟨e, st⟩ := p
      rw [mainScript_error env e st hp hr] at h ⊢
      rw [hr] at hrun
      simp only [stateOf] at hrun
      simp at h
      simpa [fileSizes] using hrun f s h

/-- Witness for C9: at `envAllOk` the success line for icon16.png was
emitted, and indeed a 16-pixel file of that name exists. -/
theorem success_line_implies_file_witness :
    ("icon16.png", 16) ∈ fileSizes (mainScript envAllOk) :=
  success_line_implies_file envAllOk "icon16.png" 16 (by decide)

/-- C10: the fallback estimate is used only when no font object was
obtained; if a font was obtained but measuring the bounding box raises, the
exception propagates out of the render — no estimate is substituted — and,
at the top level, halts the whole batch with zero files written. -/
theorem bbox_error_propagates (env : PyEnv) (size : Nat) (e : String)
    (h1 : env.loadDefaultOk = true)
    (h2 : env.textbbox Font.default = Except.error e) :
    renderIcon env size = Except.error e ∧
    (env.pilAvailable = true →
      (mainScript env).files = [] ∧
      (mainScript env).output = [Line.errorCreating e, Line.manualSuggestion]) := by
  have hrender : ∀ sz : Nat, renderIcon env sz = Except.error e := by
    intro sz
    simp [renderIcon, resolveFont, measureText, h1, h2]
  refine ⟨hrender size, fun hpil => ?_⟩
  have hfirst : create_icon env 16 "icon16.png" initState =
      Except.error (e, initState) := by
    simp [create_icon, hrender 16]
  have hiter : runIcons env iconList initState =
      Except.error (e, initState) := by
    simp only [iconList, runIcons, hfirst]
  rw [mainScript_error env e initState hpil hiter]
  constructor <;> simp [initState]

/-- Witness for C10: at `envBadBBox` — font loads, `textbbox` raises — the
render fails with that exception and the whole run writes nothing. -/
theorem bbox_error_propagates_witness :
    renderIcon envBadBBox 16 = Except.error "bbox failure" ∧
    ((mainScript envBadBBox).files = [] ∧
      (mainScript envBadBBox).output =
        [Line.errorCreating "bbox failure", Line.manualSuggestion]) :=
  ⟨(bbox_error_propagates envBadBBox 16 "bbox failure" rfl rfl).1,
   (bbox_error_propagates envBadBBox 16 "bbox failure" rfl rfl).2 rfl⟩
